import Mathlib

/-!
A shallow embedding of `main.py` of the daily-news-bot repository.

The program is a single-run digest pipeline: it prunes a persisted
URL-hash → last-seen-date history, fetches a fixed list of RSS sources,
extracts and deduplicates entries into normalized items, hands them to an
external summarizer, mails the result to each recipient, and persists the
mutated history.

External collaborators (the md5 hash, the BeautifulSoup text stripper, the
HTTP layer, the LLM API and the SMTP mailer) are modelled as function
parameters; everything else is translated line-by-line from `main.py`.
Strings are Lean `String`s (Python slicing is by code points, matching
`String.data : List Char`); the history dict is an insertion-ordered
association list; a raised exception that escapes `fetch_data` is the
`Except.error` case.
-/

set_option autoImplicit false

namespace NewsBot

/-- A calendar date as produced by `datetime.strptime(v, "%Y-%m-%d")`. -/
structure Date where
  year : Nat
  month : Nat
  day : Nat
deriving DecidableEq, Repr

/-- Gregorian leap-year rule, as used by Python `datetime`. -/
def isLeap (y : Nat) : Bool :=
  (y % 4 == 0 && y % 100 != 0) || y % 400 == 0

/-- Days in a month of a given year (Python `datetime` calendar). -/
def daysInMonth (y m : Nat) : Nat :=
  if m = 2 then (if isLeap y then 29 else 28)
  else if m = 4 ∨ m = 6 ∨ m = 9 ∨ m = 11 then 30
  else 31

/-- Days in the given year strictly before month `m`. -/
def daysBeforeMonth (y : Nat) : Nat → Nat
  | 0 => 0
  | 1 => 0
  | m + 1 => daysBeforeMonth y m + daysInMonth y m

/-- Proleptic-Gregorian ordinal of a date (Python `date.toordinal`):
day 1 is 0001-01-01. -/
def toOrdinal (d : Date) : Nat :=
  365 * (d.year - 1) + (d.year - 1) / 4 - (d.year - 1) / 100 + (d.year - 1) / 400
    + daysBeforeMonth d.year d.month + d.day

/-- `(datetime.now() - datetime.strptime(v, "%Y-%m-%d")).days`: since the
stored date is at midnight and `now`'s time-of-day is a fraction in `[0,1)`,
the floored day difference is exactly the ordinal difference. -/
def daysAgo (now d : Date) : Int :=
  (toOrdinal now : Int) - (toOrdinal d : Int)

/-- Split a character list at every dash (`"-".split` semantics). -/
def splitDash : List Char → List (List Char)
  | [] => [[]]
  | c :: rest =>
    match splitDash rest with
    | [] => [[]]
    | g :: gs => if c = '-' then [] :: g :: gs else (c :: g) :: gs

/-- The numeric value of a decimal digit character, `none` otherwise. -/
def decDigit? (c : Char) : Option Nat :=
  if '0' ≤ c ∧ c ≤ '9' then some (c.toNat - '0'.toNat) else none

/-- Accumulating decimal parse of a digit string. -/
def parseNatAux : Nat → List Char → Option Nat
  | acc, [] => some acc
  | acc, c :: rest =>
    match decDigit? c with
    | some d => parseNatAux (acc * 10 + d) rest
    | none => none

/-- Parse a non-empty all-digit character list as a decimal numeral. -/
def parseNatDigits : List Char → Option Nat
  | [] => none
  | l => parseNatAux 0 l

/-- `datetime.strptime(v, "%Y-%m-%d")`: three dash-separated decimal fields
forming a valid calendar date, else a `ValueError` (modelled as `none`). -/
def parseDate (s : String) : Option Date :=
  match splitDash s.data with
  | [ys, ms, dstr] =>
    match parseNatDigits ys, parseNatDigits ms, parseNatDigits dstr with
    | some y, some m, some d =>
      if 1 ≤ y ∧ y ≤ 9999 ∧ 1 ≤ m ∧ m ≤ 12 ∧ 1 ≤ d ∧ d ≤ daysInMonth y m
      then some ⟨y, m, d⟩ else none
    | _, _, _ => none
  | _ => none

/-- Zero-pad a numeral to two digits (`strftime` `%m` / `%d`). -/
def pad2 (n : Nat) : String :=
  if n < 10 then "0" ++ toString n else toString n

/-- `datetime.now().strftime("%Y-%m-%d")` applied to a date. -/
def formatDate (d : Date) : String :=
  toString d.year ++ "-" ++ pad2 d.month ++ "-" ++ pad2 d.day

/-- The keep-condition of the `valid_history` dict comprehension in
`fetch_data` (`main.py` lines 84-85), on a single stored value, assuming the
value parses: kept iff last seen strictly less than 3 days ago. -/
def keepEntry (now : Date) (v : String) : Bool :=
  match parseDate v with
  | some d => daysAgo now d < 3
  | none => false

/-- The `valid_history` dict comprehension in `fetch_data` (`main.py`
lines 84-85). The comprehension evaluates `datetime.strptime` on every
stored value; an unparsable value raises `ValueError` out of `fetch_data`
(there is no enclosing `try`), modelled as `Except.error ()`. -/
def pruneHistory (now : Date) : List (String × String) → Except Unit (List (String × String))
  | [] => .ok []
  | (k, v) :: rest =>
    match parseDate v with
    | none => .error ()
    | some d =>
      match pruneHistory now rest with
      | .error e => .error e
      | .ok rest2 => .ok (if daysAgo now d < 3 then (k, v) :: rest2 else rest2)

/-- Python string slicing `s[:n]` (by code points). -/
def strTake (s : String) (n : Nat) : String :=
  ⟨s.data.take n⟩

/-- The default whitespace stripped by Python `str.strip()`. -/
def pyIsSpace (c : Char) : Bool :=
  c = ' ' ∨ c = '\t' ∨ c = '\n' ∨ c = '\r' ∨ c = '\x0b' ∨ c = '\x0c'

/-- Python `str.strip()`: remove leading and trailing whitespace. -/
def pyStrip (s : String) : String :=
  ⟨(((s.data.dropWhile pyIsSpace).reverse.dropWhile pyIsSpace).reverse)⟩

/-- Fuelled worker of Python `str.replace`: scan left to right,
substituting each non-overlapping occurrence of the (non-empty) pattern. -/
def replaceAux (pat rep : List Char) : Nat → List Char → List Char
  | 0, l => l
  | fuel + 1, l =>
    match l with
    | [] => []
    | c :: rest =>
      if pat ≠ [] ∧ pat.isPrefixOf (c :: rest) then
        rep ++ replaceAux pat rep fuel ((c :: rest).drop pat.length)
      else c :: replaceAux pat rep fuel rest

/-- Python `s.replace(pat, rep)` for a non-empty pattern. -/
def pyReplace (s pat rep : String) : String :=
  ⟨replaceAux pat.data rep.data s.data.length s.data⟩

/-- `clean_text` (`main.py` lines 70-75). `get_text` is the external
BeautifulSoup collaborator (`soup.get_text(separator=' ', strip=True)`);
`none` models a `None` argument, which like `""` is falsy in Python. -/
def clean_text (get_text : String → String) (html_content : Option String) : String :=
  match html_content with
  | none => ""
  | some s => if s = "" then "" else strTake (get_text s) 600 ++ "..."

/-- One parsed feed entry, as accessed by `fetch_data`. `content` holds the
value of the first content block (`entry.content[0].value`) when the
`content` attribute is present; `summary` and `description` are `none` when
`hasattr` is false. -/
structure Entry where
  link : String
  title : String
  content : Option String
  summary : Option String
  description : Option String
deriving DecidableEq, Repr

/-- The `content_raw` fallback chain in `fetch_data` (`main.py`
lines 114-120): `content[0].value` if the `content` attribute exists, else
`summary`, else `description`, else the initial `""`. -/
def content_raw (e : Entry) : String :=
  match e.content with
  | some c => c
  | none =>
    match e.summary with
    | some s => s
    | none =>
      match e.description with
      | some d => d
      | none => ""

/-- A normalized item appended to `collected` (`main.py` lines 122-128). -/
structure Item where
  category : String
  title : String
  url : String
  summary : String
  source : String
deriving DecidableEq, Repr

/-- The dict literal built for one entry (`main.py` lines 122-128). -/
def mkItem (category src : String) (get_text : String → String) (e : Entry) : Item :=
  { category := category
    title := e.title
    url := e.link
    summary := clean_text get_text (some (content_raw e))
    source := src }

/-- Python dict assignment `h[k] = v` on an insertion-ordered association
list: replace in place if the key exists, else append. -/
def dictInsert (k v : String) : List (String × String) → List (String × String)
  | [] => [(k, v)]
  | (k0, v0) :: rest => if k0 = k then (k, v) :: rest else (k0, v0) :: dictInsert k v rest

/-- The body of the per-entry loop in `fetch_data` (`main.py`
lines 107-128): hash the link; skip if seen in the valid history, else
record the hash with today's date and append the normalized item. -/
def process_entry (get_hash get_text : String → String) (today category src : String)
    (st : List Item × List (String × String)) (e : Entry) :
    List Item × List (String × String) :=
  let uid := get_hash e.link
  if (List.lookup uid st.2).isSome then st
  else (st.1 ++ [mkItem category src get_text e], dictInsert uid today st.2)

/-- `limit = 3 if category == "HARDCORE_AI" else 2` (`main.py` line 105). -/
def limitFor (category : String) : Nat :=
  if category = "HARDCORE_AI" then 3 else 2

/-- A parsed feed: `feed.feed.title` (when present) and `feed.entries`. -/
structure Feed where
  title : Option String
  entries : List Entry
deriving DecidableEq, Repr

/-- Result of `requests.get` on one source URL: a transport exception
(caught by the per-URL `try`), or a response whose body `feedparser`
parses into a feed. -/
inductive FetchOutcome where
  | failure
  | response (status : Nat) (feed : Feed)
deriving DecidableEq, Repr

/-- The per-feed entry loop (`main.py` lines 104-128): only the first
`limit` entries are considered, then each is processed in order. -/
def process_feed (get_hash get_text : String → String) (today category : String)
    (feed : Feed) (st : List Item × List (String × String)) :
    List Item × List (String × String) :=
  let src := feed.title.getD "Web"
  (feed.entries.take (limitFor category)).foldl
    (process_entry get_hash get_text today category src) st

/-- The per-URL body in `fetch_data` (`main.py` lines 97-130): a transport
error is caught and skipped, a non-200 status is skipped with `continue`,
otherwise the parsed feed is processed. -/
def fetch_url (world : String → FetchOutcome) (get_hash get_text : String → String)
    (today category url : String) (st : List Item × List (String × String)) :
    List Item × List (String × String) :=
  match world url with
  | .failure => st
  | .response status feed =>
    if status ≠ 200 then st else process_feed get_hash get_text today category feed st

/-- `RSS_SOURCES` (`main.py` lines 27-46), in dict insertion order. -/
def RSS_SOURCES : List (String × List String) :=
  [("HARDCORE_AI",
    ["http://export.arxiv.org/rss/cs.AI",
     "https://openai.com/news/rss.xml",
     "https://research.google/blog/rss",
     "https://www.microsoft.com/en-us/research/feed/",
     "https://huggingface.co/blog/feed.xml"]),
   ("COMMUNITY_BUZZ",
    ["https://www.reddit.com/r/LocalLLaMA/top/.rss?t=day",
     "https://www.reddit.com/r/MachineLearning/top/.rss?t=day",
     "https://news.ycombinator.com/rss"]),
   ("TECH_INSIGHTS",
    ["https://www.theverge.com/rss/index.xml"])]

/-- `fetch_data` (`main.py` lines 78-132). The loaded history is a
parameter (the content of `news_history.json`); `world` is the network;
returns `collected` and the mutated `valid_history`, or the uncaught
`ValueError` from the pruning comprehension. -/
def fetch_data (world : String → FetchOutcome) (get_hash get_text : String → String)
    (now : Date) (history : List (String × String)) :
    Except Unit (List Item × List (String × String)) := do
  let today_str := formatDate now
  let valid ← pruneHistory now history
  pure (RSS_SOURCES.foldl
    (fun st cu => cu.2.foldl
      (fun st url => fetch_url world get_hash get_text today_str cu.1 url st) st)
    ([], valid))

/-- The `data_str` accumulation in `generate_newsletter` (`main.py`
lines 141-143), with 1-based enumeration. -/
def data_str (items : List Item) : String :=
  (items.foldl
    (fun (p : Nat × String) item =>
      (p.1 + 1,
       p.2 ++ "[" ++ toString p.1 ++ "] <" ++ item.category ++ "> " ++ item.title
         ++ "\n来源: " ++ item.source ++ "\n内容: " ++ item.summary
         ++ "\n链接: " ++ item.url ++ "\n\n"))
    (1, "")).2

/-- `generate_newsletter` (`main.py` lines 137-201). `api` is the external
LLM call, applied to the variable part of the prompt; `none` models an
exception from the API client (caught, logged, `return None`). On success
the content is cleaned of markdown fences and stripped. -/
def generate_newsletter (api : String → Option String) (items : List Item) : Option String :=
  if items.isEmpty then none
  else
    match api (data_str items) with
    | none => none
    | some content => some (pyStrip (pyReplace (pyReplace content "```html" "") "```" ""))

/-- `send_email`'s recipient loop (`main.py` lines 268-283). `mailer` is
the external SMTP send for one stripped recipient address; `false` models
an exception (caught and logged, the loop continues). Returns the ordered
list of attempted recipients with their outcome. -/
def send_email (mailer : String → Bool) : List String → List (String × Bool)
  | [] => []
  | receiver :: rest =>
    let r := pyStrip receiver
    if r = "" then send_email mailer rest
    else (r, mailer r) :: send_email mailer rest

/-- Observable outcome of one run of `__main__`: whether
`generate_newsletter` was invoked, the mail attempts made, and the history
written by `save_history` (`none` = the file was not written). -/
structure RunResult where
  summarizerCalled : Bool
  mailAttempts : List (String × Bool)
  savedHistory : Option (List (String × String))
deriving DecidableEq, Repr

/-- The `__main__` block (`main.py` lines 286-294): fetch, gate on
non-empty items, summarize, gate on a truthy report, send to all
recipients, save history. -/
def mainRun (world : String → FetchOutcome) (get_hash get_text : String → String)
    (api : String → Option String) (mailer : String → Bool) (now : Date)
    (history : List (String × String)) (receivers : List String) :
    Except Unit RunResult := do
  let (items, new_history) ← fetch_data world get_hash get_text now history
  if items.isEmpty then
    pure ⟨false, [], none⟩
  else
    match generate_newsletter api items with
    | none => pure ⟨true, [], none⟩
    | some report =>
      if report = "" then pure ⟨true, [], none⟩
      else pure ⟨true, send_email mailer receivers, some new_history⟩

/-- The fallback order §4.3 of the spec describes, stated from the spec's
words for comparison with `content_raw`: summary field, else description
field, else first content block, else the empty placeholder. -/
def spec_summary_fallback (e : Entry) : String :=
  match e.summary with
  | some s => s
  | none =>
    match e.description with
    | some d => d
    | none =>
      match e.content with
      | some c => c
      | none => ""

/-! ## Helper lemmas -/

theorem lookup_dictInsert_self (k v : String) (h : List (String × String)) :
    List.lookup k (dictInsert k v h) = some v := by
  induction h with
  | nil => simp [dictInsert, List.lookup]
  | cons hd tl ih =>
    obtain ⟨k0, v0⟩ := hd
    by_cases hk : k0 = k
    · subst hk; simp [dictInsert, List.lookup]
    · have hk2 : ¬ k = k0 := fun hh => hk hh.symm
      have hb : (k == k0) = false := by simp [hk2]
      simp [dictInsert, hk, List.lookup, hb, ih]

theorem pruneHistory_eq_filter (now : Date) (h : List (String × String))
    (hall : ∀ p ∈ h, (parseDate p.2).isSome) :
    pruneHistory now h = .ok (h.filter (fun p => keepEntry now p.2)) := by
  induction h with
  | nil => simp [pruneHistory]
  | cons hd tl ih =>
    obtain ⟨k, v⟩ := hd
    obtain ⟨d, hdv⟩ := Option.isSome_iff_exists.mp (hall (k, v) (List.mem_cons_self _ _))
    have ih2 := ih (fun p hp => hall p (List.mem_cons_of_mem _ hp))
    by_cases hlt : daysAgo now d < 3
    · simp [pruneHistory, hdv, ih2, hlt, keepEntry]
    · simp [pruneHistory, hdv, ih2, hlt, keepEntry]

theorem pruneHistory_error (now : Date) (h : List (String × String))
    (hbad : ∃ p ∈ h, parseDate p.2 = none) :
    pruneHistory now h = .error () := by
  induction h with
  | nil => simp at hbad
  | cons hd tl ih =>
    obtain ⟨k, v⟩ := hd
    obtain ⟨p, hp, hpn⟩ := hbad
    match hv : parseDate v with
    | none => simp [pruneHistory, hv]
    | some d =>
      rcases List.mem_cons.mp hp with h1 | h1
      · rw [h1] at hpn; simp [hv] at hpn
      · have h2 := ih ⟨p, h1, hpn⟩
        simp [pruneHistory, hv, h2]

/-! ## Claims -/

/-- Claim C1: for every run and parsed feed entry, a `NormalizedItem` is
produced only if the hash of its URL is absent from the valid history at
the moment the entry is processed; whenever an item is produced the hash
is immediately recorded in the in-memory history with the current run
date (this happens inside `fetch_data`, before `generate_newsletter` or
`send_email` run); and a history entry dated today survives pruning, so
re-extracting an entry whose URL hash is in the valid history yields no
`NormalizedItem`. -/
theorem c1_dedup_invariant (get_hash get_text : String → String)
    (today category src : String) (st : List Item × List (String × String)) (e : Entry) :
    ((List.lookup (get_hash e.link) st.2).isSome →
      process_entry get_hash get_text today category src st e = st) ∧
    (List.lookup (get_hash e.link) st.2 = none →
      process_entry get_hash get_text today category src st e =
        (st.1 ++ [mkItem category src get_text e], dictInsert (get_hash e.link) today st.2) ∧
      List.lookup (get_hash e.link)
        (process_entry get_hash get_text today category src st e).2 = some today) ∧
    (∀ (now : Date) (k v : String), parseDate v = some now →
      pruneHistory now [(k, v)] = .ok [(k, v)]) := by
  refine ⟨?_, ?_, ?_⟩
  · intro hs
    simp [process_entry, hs]
  · intro hn
    have hns : ¬ (List.lookup (get_hash e.link) st.2).isSome := by simp [hn]
    refine ⟨by simp [process_entry, hns], ?_⟩
    simp [process_entry, hns, lookup_dictInsert_self]
  · intro now k v hv
    have h0 : daysAgo now now < 3 := by simp [daysAgo]
    simp [pruneHistory, hv, h0]

/-- Witness for C1 at concrete inputs: an entry whose URL hash is already
in the history produces nothing; on a fresh history the item is produced
and its hash recorded with today's date; a today-dated entry survives
pruning. -/
theorem c1_dedup_invariant_witness :
    process_entry id id "2026-10-12" "TECH_INSIGHTS" "Src"
        ([], [("u1", "2026-10-12")]) ⟨"u1", "T", none, some "x", none⟩
      = ([], [("u1", "2026-10-12")]) ∧
    List.lookup "u1"
        (process_entry id id "2026-10-12" "TECH_INSIGHTS" "Src"
          ([], []) ⟨"u1", "T", none, some "x", none⟩).2 = some "2026-10-12" ∧
    pruneHistory ⟨2026, 10, 12⟩ [("u1", "2026-10-12")] = .ok [("u1", "2026-10-12")] :=
  ⟨(c1_dedup_invariant id id "2026-10-12" "TECH_INSIGHTS" "Src"
      ([], [("u1", "2026-10-12")]) ⟨"u1", "T", none, some "x", none⟩).1 (by decide),
   ((c1_dedup_invariant id id "2026-10-12" "TECH_INSIGHTS" "Src"
      ([], []) ⟨"u1", "T", none, some "x", none⟩).2.1 rfl).2,
   (c1_dedup_invariant id id "2026-10-12" "TECH_INSIGHTS" "Src"
      ([], []) ⟨"u1", "T", none, some "x", none⟩).2.2 ⟨2026, 10, 12⟩ "u1" "2026-10-12"
      (by decide)⟩

/-- Claim C2: when every stored date parses, pruning returns exactly the
loaded entries whose date is within the 3-day retention window of now; an
entry dated now minus 4 days (retention 3 plus 1) is removed by pruning,
and after its removal an entry with the same URL is extracted again as a
`NormalizedItem` whose hash is re-recorded. -/
theorem c2_prune_window (now : Date) (h : List (String × String))
    (hall : ∀ p ∈ h, (parseDate p.2).isSome) :
    pruneHistory now h = .ok (h.filter (fun p => keepEntry now p.2)) ∧
    (∀ (get_hash get_text : String → String) (today category src v : String)
       (dv : Date) (e : Entry),
       parseDate v = some dv → daysAgo now dv = 4 →
       pruneHistory now [(get_hash e.link, v)] = .ok [] ∧
       process_entry get_hash get_text today category src ([], []) e =
         ([mkItem category src get_text e], [(get_hash e.link, today)])) := by
  refine ⟨pruneHistory_eq_filter now h hall, ?_⟩
  intro get_hash get_text today category src v dv e hv hdiff
  have hge : ¬ daysAgo now dv < 3 := by omega
  refine ⟨by simp [pruneHistory, hv, hge], ?_⟩
  simp [process_entry, List.lookup, dictInsert]

/-- Witness for C2 at concrete inputs: from a history holding a 4-day-old
and a today-dated entry, pruning keeps exactly the fresh one; a singleton
4-day-old history is pruned to empty and the same URL is re-extracted. -/
theorem c2_prune_window_witness :
    pruneHistory ⟨2026, 10, 12⟩ [("u1", "2026-10-08"), ("u2", "2026-10-12")]
      = .ok (([("u1", "2026-10-08"), ("u2", "2026-10-12")] : List (String × String)).filter
          (fun p => keepEntry ⟨2026, 10, 12⟩ p.2)) ∧
    pruneHistory ⟨2026, 10, 12⟩ [("u1", "2026-10-08")] = .ok [] ∧
    process_entry id id "2026-10-12" "NEWS" "Src" ([], []) ⟨"u1", "T", none, some "x", none⟩
      = ([mkItem "NEWS" "Src" id ⟨"u1", "T", none, some "x", none⟩], [("u1", "2026-10-12")]) :=
  ⟨(c2_prune_window ⟨2026, 10, 12⟩ [("u1", "2026-10-08"), ("u2", "2026-10-12")] (by decide)).1,
   ((c2_prune_window ⟨2026, 10, 12⟩ [] (by simp)).2 id id "2026-10-12" "NEWS" "Src"
      "2026-10-08" ⟨2026, 10, 8⟩ ⟨"u1", "T", none, some "x", none⟩ (by decide) (by decide)).1,
   ((c2_prune_window ⟨2026, 10, 12⟩ [] (by simp)).2 id id "2026-10-12" "NEWS" "Src"
      "2026-10-08" ⟨2026, 10, 8⟩ ⟨"u1", "T", none, some "x", none⟩ (by decide) (by decide)).2⟩

/-- Counterexample to claim C3: a single unparsable date in the loaded
history makes the whole pruning comprehension raise (the later, perfectly
valid entry is never returned), and the error escapes `fetch_data`
unhandled, so one bad date does fail the whole history and run. -/
theorem c3_counterexample :
    pruneHistory ⟨2026, 10, 12⟩ [("a", "not-a-date"), ("b", "2026-10-12")] = .error () ∧
    fetch_data (fun _ => FetchOutcome.failure) id id ⟨2026, 10, 12⟩
      [("a", "not-a-date"), ("b", "2026-10-12")] = .error () :=
  ⟨rfl, rfl⟩

/-- Claim C3 as amended: if any loaded history entry has an unparsable
date string, the pruning comprehension raises an uncaught `ValueError`,
so the whole pruning and the whole run fail — there is no per-entry
handling. -/
theorem c3_amended_bad_date_aborts (now : Date) (h : List (String × String))
    (hbad : ∃ p ∈ h, parseDate p.2 = none) :
    pruneHistory now h = .error () ∧
    ∀ (world : String → FetchOutcome) (get_hash get_text : String → String),
      fetch_data world get_hash get_text now h = .error () := by
  have hp := pruneHistory_error now h hbad
  refine ⟨hp, ?_⟩
  intro world get_hash get_text
  simp [fetch_data, hp, Bind.bind, Except.bind]

/-- Witness for the amended C3 at a concrete input. -/
theorem c3_amended_bad_date_aborts_witness :
    pruneHistory ⟨2026, 10, 12⟩ [("a", "bad"), ("b", "2026-10-12")] = .error () ∧
    fetch_data (fun _ => FetchOutcome.failure) id id ⟨2026, 10, 12⟩
      [("a", "bad"), ("b", "2026-10-12")] = .error () :=
  ⟨(c3_amended_bad_date_aborts ⟨2026, 10, 12⟩ [("a", "bad"), ("b", "2026-10-12")]
      ⟨("a", "bad"), by simp, by decide⟩).1,
   (c3_amended_bad_date_aborts ⟨2026, 10, 12⟩ [("a", "bad"), ("b", "2026-10-12")]
      ⟨("a", "bad"), by simp, by decide⟩).2 (fun _ => FetchOutcome.failure) id id⟩

/-- Claim C4: if zero items are collected across all sources, the run
terminates successfully without invoking the summarizer, without invoking
the mailer, and without writing the history file — a no-op run. -/
theorem c4_empty_gate (world : String → FetchOutcome) (get_hash get_text : String → String)
    (api : String → Option String) (mailer : String → Bool) (now : Date)
    (history : List (String × String)) (receivers : List String)
    (h2 : List (String × String))
    (hf : fetch_data world get_hash get_text now history = .ok ([], h2)) :
    mainRun world get_hash get_text api mailer now history receivers
      = .ok ⟨false, [], none⟩ := by
  simp [mainRun, hf, Bind.bind, Except.bind, Pure.pure, Except.pure]

/-- Witness for C4: a run in which every fetch fails collects nothing and
is a successful no-op. -/
theorem c4_empty_gate_witness :
    mainRun (fun _ => FetchOutcome.failure) id id (fun _ => some "R") (fun _ => true)
      ⟨2026, 10, 12⟩ [] ["r@x.com"] = .ok ⟨false, [], none⟩ :=
  c4_empty_gate (fun _ => FetchOutcome.failure) id id (fun _ => some "R") (fun _ => true)
    ⟨2026, 10, 12⟩ [] ["r@x.com"] [] rfl

/-- Claim C5: if the summarizer fails (`None`) or returns no usable result
(falsy empty string), the pipeline terminates without attempting any mail
send and without saving history, leaving the persisted file untouched. -/
theorem c5_summarizer_abort (world : String → FetchOutcome) (get_hash get_text : String → String)
    (api : String → Option String) (mailer : String → Bool) (now : Date)
    (history : List (String × String)) (receivers : List String)
    (items : List Item) (h2 : List (String × String))
    (hf : fetch_data world get_hash get_text now history = .ok (items, h2))
    (hne : items ≠ [])
    (hrep : generate_newsletter api items = none ∨ generate_newsletter api items = some "") :
    mainRun world get_hash get_text api mailer now history receivers
      = .ok ⟨true, [], none⟩ := by
  cases items with
  | nil => exact absurd rfl hne
  | cons i is =>
    rcases hrep with hrep | hrep <;>
      simp [mainRun, hf, Bind.bind, Except.bind, Pure.pure, Except.pure, hrep]

/-- Witness for C5: one item is collected, the API call raises, and the
run ends with no mail attempts and no history write. -/
theorem c5_summarizer_abort_witness :
    mainRun
      (fun u => if u = "https://www.theverge.com/rss/index.xml"
        then FetchOutcome.response 200
          ⟨some "The Verge", [⟨"http://x.example/a", "Title A", none, some "hello world", none⟩]⟩
        else FetchOutcome.failure)
      id id (fun _ => none) (fun _ => true) ⟨2026, 10, 12⟩ [] ["r@x.com"]
      = .ok ⟨true, [], none⟩ :=
  c5_summarizer_abort
    (fun u => if u = "https://www.theverge.com/rss/index.xml"
      then FetchOutcome.response 200
        ⟨some "The Verge", [⟨"http://x.example/a", "Title A", none, some "hello world", none⟩]⟩
      else FetchOutcome.failure)
    id id (fun _ => none) (fun _ => true) ⟨2026, 10, 12⟩ [] ["r@x.com"]
    [⟨"TECH_INSIGHTS", "Title A", "http://x.example/a", "hello world...", "The Verge"⟩]
    [("http://x.example/a", "2026-10-12")] rfl (by decide) (Or.inl rfl)

/-- Claim C6: once summarization succeeded with a truthy report, a send is
attempted for every configured recipient with non-blank stripped address,
each attempt's outcome depending only on the mailer's answer for that
recipient, and the mutated history is persisted regardless of any
per-recipient send failures. -/
theorem c6_mailer_independence (world : String → FetchOutcome)
    (get_hash get_text : String → String) (api : String → Option String)
    (mailer : String → Bool) (now : Date) (history : List (String × String))
    (receivers : List String) (items : List Item) (h2 : List (String × String))
    (report : String)
    (hf : fetch_data world get_hash get_text now history = .ok (items, h2))
    (hne : items ≠ [])
    (hrep : generate_newsletter api items = some report) (hr : report ≠ "") :
    mainRun world get_hash get_text api mailer now history receivers
      = .ok ⟨true, send_email mailer receivers, some h2⟩ ∧
    send_email mailer receivers =
      receivers.filterMap (fun receiver =>
        if pyStrip receiver = "" then none
        else some (pyStrip receiver, mailer (pyStrip receiver))) := by
  constructor
  · cases items with
    | nil => exact absurd rfl hne
    | cons i is => simp [mainRun, hf, Bind.bind, Except.bind, Pure.pure, Except.pure, hrep, hr]
  · induction receivers with
    | nil => simp [send_email]
    | cons receiver rest ih =>
      by_cases hre : pyStrip receiver = "" <;> simp [send_email, hre, ih]

/-- Witness for C6: two recipients, the mailer fails for the first and
succeeds for the second; both are attempted (the second address is
stripped), the second succeeds, and the mutated history is saved. -/
theorem c6_mailer_independence_witness :
    mainRun
      (fun u => if u = "https://www.theverge.com/rss/index.xml"
        then FetchOutcome.response 200
          ⟨some "The Verge", [⟨"http://x.example/a", "Title A", none, some "hello world", none⟩]⟩
        else FetchOutcome.failure)
      id id (fun _ => some "REPORT") (fun r => r == "b@x.com") ⟨2026, 10, 12⟩ []
      ["a@x.com", " b@x.com "]
      = .ok ⟨true, [("a@x.com", false), ("b@x.com", true)],
             some [("http://x.example/a", "2026-10-12")]⟩ :=
  (c6_mailer_independence
    (fun u => if u = "https://www.theverge.com/rss/index.xml"
      then FetchOutcome.response 200
        ⟨some "The Verge", [⟨"http://x.example/a", "Title A", none, some "hello world", none⟩]⟩
      else FetchOutcome.failure)
    id id (fun _ => some "REPORT") (fun r => r == "b@x.com") ⟨2026, 10, 12⟩ []
    ["a@x.com", " b@x.com "]
    [⟨"TECH_INSIGHTS", "Title A", "http://x.example/a", "hello world...", "The Verge"⟩]
    [("http://x.example/a", "2026-10-12")] "REPORT" rfl (by decide) rfl (by decide)).1

/-- Counterexample to claim C7: the code's fallback checks the `content`
attribute first, not the `summary` field — on an entry carrying both a
summary and a content block, the raw summary resolves to the content
block's value, not to the summary field as the claimed order requires. -/
theorem c7_counterexample :
    content_raw ⟨"u", "t", some "CONTENT", some "SUMMARY", none⟩ = "CONTENT" ∧
    spec_summary_fallback ⟨"u", "t", some "CONTENT", some "SUMMARY", none⟩ = "SUMMARY" ∧
    content_raw ⟨"u", "t", some "CONTENT", some "SUMMARY", none⟩ ≠
      spec_summary_fallback ⟨"u", "t", some "CONTENT", some "SUMMARY", none⟩ :=
  ⟨rfl, rfl, by decide⟩

/-- Claim C7 as amended: the raw summary resolves through the ordered
fallback first content block, else summary field, else description field,
else the empty placeholder `""`; every combination of absent fields is
handled totally, never as a missing-field error. -/
theorem c7_amended_fallback (e : Entry) :
    (∀ c, e.content = some c → content_raw e = c) ∧
    (e.content = none → ∀ s, e.summary = some s → content_raw e = s) ∧
    (e.content = none → e.summary = none → ∀ d, e.description = some d →
      content_raw e = d) ∧
    (e.content = none → e.summary = none → e.description = none →
      content_raw e = "") := by
  refine ⟨?_, ?_, ?_, ?_⟩ <;> intros <;> simp_all [content_raw]

/-- Witness for the amended C7: each of the four fallback positions at a
concrete entry. -/
theorem c7_amended_fallback_witness :
    content_raw ⟨"u", "t", some "C", some "S", some "D"⟩ = "C" ∧
    content_raw ⟨"u", "t", none, some "S", some "D"⟩ = "S" ∧
    content_raw ⟨"u", "t", none, none, some "D"⟩ = "D" ∧
    content_raw ⟨"u", "t", none, none, none⟩ = "" :=
  ⟨(c7_amended_fallback ⟨"u", "t", some "C", some "S", some "D"⟩).1 "C" rfl,
   (c7_amended_fallback ⟨"u", "t", none, some "S", some "D"⟩).2.1 rfl "S" rfl,
   (c7_amended_fallback ⟨"u", "t", none, none, some "D"⟩).2.2.1 rfl rfl "D" rfl,
   (c7_amended_fallback ⟨"u", "t", none, none, none⟩).2.2.2 rfl rfl rfl⟩

/-- Claim C8: only the first N entries of a parsed feed are considered
(N = 3 for HARDCORE_AI, otherwise 2), the cap being applied by `[:limit]`
before the dedup check; a non-HARDCORE_AI source whose feed yields 5
entries contributes exactly the first 2 candidate items before dedup. -/
theorem c8_source_cap :
    limitFor "HARDCORE_AI" = 3 ∧
    (∀ category, category ≠ "HARDCORE_AI" → limitFor category = 2) ∧
    (∀ (get_hash get_text : String → String) (today category : String) (feed : Feed)
       (st : List Item × List (String × String)),
       process_feed get_hash get_text today category feed st =
         (feed.entries.take (limitFor category)).foldl
           (process_entry get_hash get_text today category (feed.title.getD "Web")) st) ∧
    (∀ (get_hash get_text : String → String) (today category : String)
       (ft : Option String) (e1 e2 e3 e4 e5 : Entry),
       category ≠ "HARDCORE_AI" →
       get_hash e2.link ≠ get_hash e1.link →
       (process_feed get_hash get_text today category ⟨ft, [e1, e2, e3, e4, e5]⟩ ([], [])).1
         = [mkItem category (ft.getD "Web") get_text e1,
            mkItem category (ft.getD "Web") get_text e2]) := by
  refine ⟨rfl, ?_, ?_, ?_⟩
  · intro category hc
    simp [limitFor, hc]
  · intro get_hash get_text today category feed st
    rfl
  · intro get_hash get_text today category ft e1 e2 e3 e4 e5 hc hne
    have hb : (get_hash e2.link == get_hash e1.link) = false := by simp [hne]
    simp [process_feed, limitFor, hc, process_entry, List.lookup, dictInsert, hb]

/-- Witness for C8: a TECH_INSIGHTS feed with 5 distinct entries yields
exactly the first 2 items, and the per-category limits evaluate. -/
theorem c8_source_cap_witness :
    limitFor "TECH_INSIGHTS" = 2 ∧
    (process_feed id id "2026-10-12" "TECH_INSIGHTS"
        ⟨some "S", [⟨"u1", "T1", none, some "x", none⟩, ⟨"u2", "T2", none, some "x", none⟩,
                    ⟨"u3", "T3", none, some "x", none⟩, ⟨"u4", "T4", none, some "x", none⟩,
                    ⟨"u5", "T5", none, some "x", none⟩]⟩ ([], [])).1
      = [mkItem "TECH_INSIGHTS" "S" id ⟨"u1", "T1", none, some "x", none⟩,
         mkItem "TECH_INSIGHTS" "S" id ⟨"u2", "T2", none, some "x", none⟩] :=
  ⟨c8_source_cap.2.1 "TECH_INSIGHTS" (by decide),
   c8_source_cap.2.2.2 id id "2026-10-12" "TECH_INSIGHTS" (some "S")
     ⟨"u1", "T1", none, some "x", none⟩ ⟨"u2", "T2", none, some "x", none⟩
     ⟨"u3", "T3", none, some "x", none⟩ ⟨"u4", "T4", none, some "x", none⟩
     ⟨"u5", "T5", none, some "x", none⟩ (by decide) (by decide)⟩

/-- Claim C9: for every raw HTML summary the cleaned summary is the
stripped text truncated to the 600-character budget with the trailing
`"..."` marker, so its length never exceeds the cap plus the 3-character
marker. -/
theorem c9_clean_text_cap (get_text : String → String) (html : Option String) :
    (clean_text get_text html).length ≤ 600 + 3 ∧
    (∀ s, html = some s → s ≠ "" →
      clean_text get_text html = strTake (get_text s) 600 ++ "...") := by
  constructor
  · match html with
    | none => simp [clean_text]
    | some s =>
      by_cases hs : s = ""
      · simp [clean_text, hs]
      · have hlen : (strTake (get_text s) 600).length ≤ 600 := by
          show ((get_text s).data.take 600).length ≤ 600
          simp [List.length_take]
        calc (clean_text get_text (some s)).length
            = (strTake (get_text s) 600).length + ("...").length := by
              simp [clean_text, hs, String.length_append]
          _ ≤ 600 + 3 := by
              have h3 : ("...").length = 3 := by decide
              omega
  · intro s hsome hs
    subst hsome
    simp [clean_text, hs]

/-- Witness for C9 at a concrete input: a short stripped summary is still
capped at 600 and carries the marker. -/
theorem c9_clean_text_cap_witness :
    (clean_text id (some "hi")).length ≤ 600 + 3 ∧
    clean_text id (some "hi") = strTake (id "hi") 600 ++ "..." :=
  ⟨(c9_clean_text_cap id (some "hi")).1,
   (c9_clean_text_cap id (some "hi")).2 "hi" rfl (by decide)⟩

/-- Claim C10: `clean_text` appends the `"..."` marker unconditionally to
every non-empty input — in particular when the stripped text is 600
characters or shorter and no truncation occurred the result is the whole
stripped text plus the marker — while `None` or empty input yields the
empty string with no marker. -/
theorem c10_unconditional_ellipsis (get_text : String → String) :
    clean_text get_text none = "" ∧
    clean_text get_text (some "") = "" ∧
    (∀ s, s ≠ "" → (get_text s).length ≤ 600 →
      clean_text get_text (some s) = get_text s ++ "...") ∧
    (∀ s, s ≠ "" → ∃ t, clean_text get_text (some s) = t ++ "...") := by
  refine ⟨rfl, by simp [clean_text], ?_, ?_⟩
  · intro s hs hlen
    have htake : strTake (get_text s) 600 = get_text s := by
      show (⟨(get_text s).data.take 600⟩ : String) = get_text s
      rw [List.take_of_length_le hlen]
    simp [clean_text, hs, htake]
  · intro s hs
    exact ⟨strTake (get_text s) 600, by simp [clean_text, hs]⟩

/-- Witness for C10 at concrete inputs: a 5-character stripped summary is
returned whole with the marker appended, and falsy inputs give `""`. -/
theorem c10_unconditional_ellipsis_witness :
    clean_text id none = "" ∧
    clean_text id (some "") = "" ∧
    clean_text id (some "hello") = id "hello" ++ "..." :=
  ⟨(c10_unconditional_ellipsis id).1,
   (c10_unconditional_ellipsis id).2.1,
   (c10_unconditional_ellipsis id).2.2.1 "hello" (by decide) (by decide)⟩

end NewsBot
